import Mathlib

/-!
Shallow embedding of the WebRTC signaling core of FilesP2PService
(src/internal/websocket/server.go and the device repository it consumes).

Machine integers do not occur in the modelled code; device and user
identifiers are UUID strings, channels are bounded FIFO buffers.
-/

/-- Models google/uuid.Parse restricted to the canonical
8-4-4-4-12 hyphenated form (the form produced by uuid.UUID.String and used
on the wire); a successful parse returns the canonical lowercase string,
any other input returns none, matching Parse of a non-UUID failing. -/
def isHexDigit (c : Char) : Bool :=
  (('0' ≤ c) && (c ≤ '9')) || (('a' ≤ c) && (c ≤ 'f')) || (('A' ≤ c) && (c ≤ 'F'))

def validUUIDChars (cs : List Char) : Bool :=
  (List.range 36).all (fun i =>
    if i = 8 ∨ i = 13 ∨ i = 18 ∨ i = 23 then cs.getD i ' ' = '-'
    else isHexDigit (cs.getD i ' '))

def parseUUID (s : String) : Option String :=
  if (s.data.length == 36) && validUUIDChars s.data then
    some (String.mk (s.data.map Char.toLower))
  else none

/-- SDPMessage of server.go: SDP offer or answer payload. -/
structure SDPMessage where
  sdpType : String
  sdp : String
deriving DecidableEq, Repr

/-- ICECandidate of server.go. -/
structure ICECandidate where
  candidate : String
  sdpMLineIndex : Int
  sdpMid : String
deriving DecidableEq, Repr

/-- SignalingMessage of server.go; the Go field Type is rendered msgType
(Type is reserved in Lean), Data renders json.RawMessage as a string.
Pointer fields (SDP, Candidate) are Options, zero values are none and "". -/
structure SignalingMessage where
  msgType : String
  FromDeviceID : String
  ToDeviceID : String
  SDP : Option SDPMessage
  Candidate : Option ICECandidate
  Error : String
  Data : String
deriving DecidableEq, Repr

/-- models.Device restricted to the fields the signaling core reads:
ID, UserID (both canonical lowercase UUID strings) and DeviceToken. -/
structure Device where
  id : String
  userID : String
  token : String
deriving DecidableEq, Repr

/-- repository.DeviceRepo as consumed by the websocket server.
GetByToken / GetByID return (nil, err) on a query error, (nil, nil) on
sql.ErrNoRows and (device, nil) on a hit, rendered as Except String
(Option Device). -/
structure DeviceRepo where
  getByToken : String → Except String (Option Device)
  getByID : String → Except String (Option Device)

/-- Builds a DeviceRepo over an in-memory device table, mirroring the SQL
queries (first row whose token / id column matches, none when no row). -/
def DeviceRepo.ofList (ds : List Device) : DeviceRepo where
  getByToken := fun tok => .ok (ds.find? (fun d => d.token == tok))
  getByID := fun i => .ok (ds.find? (fun d => d.id == i))

/-- Client of server.go: ID is the locally generated session id (uuid.New,
rendered as a Nat fresh per connection), UserID and DeviceID are the
authenticated identities as canonical lowercase UUID strings. -/
structure Client where
  ID : Nat
  UserID : String
  DeviceID : String
deriving DecidableEq, Repr

/-- Outcome of one message-handler call of server.go: sendErr models
Client.sendError (a nonblocking enqueue of an error envelope onto the
sender's own Send channel), dispatch models pushing onto Hub.broadcast,
dropUnknown models the default branch of Client.handleMessage (warn log,
nothing forwarded). -/
inductive HandleResult where
  | sendErr (errorMsg : String)
  | dispatch (msg : SignalingMessage)
  | dropUnknown (msgType : String)
deriving DecidableEq, Repr

def dispatchesOf : HandleResult → List SignalingMessage
  | .dispatch m => [m]
  | _ => []

/-- Client.handleOffer of server.go. -/
def handleOffer (repo : DeviceRepo) (c : Client) (msg : SignalingMessage) : HandleResult :=
  if msg.ToDeviceID = "" then .sendErr "to_device_id is required for offer"
  else
    match parseUUID msg.ToDeviceID with
    | none => .sendErr "invalid to_device_id"
    | some toDeviceID =>
      match repo.getByID toDeviceID with
      | .error _ => .sendErr "target device not found"
      | .ok none => .sendErr "target device not found"
      | .ok (some toDevice) =>
        if toDevice.userID ≠ c.UserID then .sendErr "devices must belong to the same user"
        else .dispatch
          { msgType := "offer", FromDeviceID := c.DeviceID, ToDeviceID := msg.ToDeviceID,
            SDP := msg.SDP, Candidate := none, Error := "", Data := "" }

/-- Client.handleAnswer of server.go. -/
def handleAnswer (c : Client) (msg : SignalingMessage) : HandleResult :=
  if msg.ToDeviceID = "" then .sendErr "to_device_id is required for answer"
  else .dispatch
    { msgType := "answer", FromDeviceID := c.DeviceID, ToDeviceID := msg.ToDeviceID,
      SDP := msg.SDP, Candidate := none, Error := "", Data := "" }

/-- Client.handleICECandidate of server.go. -/
def handleICECandidate (c : Client) (msg : SignalingMessage) : HandleResult :=
  if msg.ToDeviceID = "" then .sendErr "to_device_id is required for ice-candidate"
  else .dispatch
    { msgType := "ice-candidate", FromDeviceID := c.DeviceID, ToDeviceID := msg.ToDeviceID,
      SDP := none, Candidate := msg.Candidate, Error := "", Data := "" }

/-- Client.handleMessage of server.go: switch on msg.Type. -/
def handleMessage (repo : DeviceRepo) (c : Client) (msg : SignalingMessage) : HandleResult :=
  if msg.msgType = "offer" then handleOffer repo c msg
  else if msg.msgType = "answer" then handleAnswer c msg
  else if msg.msgType = "ice-candidate" then handleICECandidate c msg
  else .dropUnknown msg.msgType

/-- Client.readPump of server.go over a prefix of the inbound frame stream.
Each stream element is the result of Conn.ReadJSON: some msg for a frame
that decodes, none for a read or decode error. The Go loop breaks on any
ReadJSON error (which then triggers unregister and Conn.Close via defer);
it never breaks on a decoded frame. Returns the handler results performed
in order, and whether the loop exited (session torn down) within this
prefix. -/
def readPump (repo : DeviceRepo) (c : Client) :
    List (Option SignalingMessage) → List HandleResult × Bool
  | [] => ([], false)
  | none :: _ => ([], true)
  | some m :: rest =>
    ((handleMessage repo c m) :: (readPump repo c rest).1, (readPump repo c rest).2)

/-- State of one Go channel of SignalingMessage with capacity 256 and no
concurrent receiver drain step modelled: buf is the pending buffer in FIFO
order, closed records whether close() ran. -/
structure ChanState where
  buf : List SignalingMessage
  closed : Bool
deriving DecidableEq, Repr

/-- Capacity of Client.Send (make(chan SignalingMessage, 256)). -/
def chanCap : Nat := 256

/-- Hub.clients and the Send-channel state of every client ever created,
keyed by client.ID. clients is the registry map device_id (canonical
lowercase UUID string) to Client; chans keeps channel state also for
clients no longer registered, since the code may still close them. -/
structure HubState where
  clients : List (String × Client)
  chans : List (Nat × ChanState)
deriving DecidableEq, Repr

def lookupA (l : List (String × Client)) (k : String) : Option Client :=
  (l.find? (fun p => p.1 == k)).map (fun p => p.2)

def insertA (l : List (String × Client)) (k : String) (v : Client) : List (String × Client) :=
  (k, v) :: l.filter (fun p => !(p.1 == k))

def eraseA (l : List (String × Client)) (k : String) : List (String × Client) :=
  l.filter (fun p => !(p.1 == k))

def getChan (st : HubState) (cid : Nat) : ChanState :=
  ((st.chans.find? (fun p => p.1 == cid)).map (fun p => p.2)).getD { buf := [], closed := false }

def setChan (st : HubState) (cid : Nat) (ch : ChanState) : HubState :=
  { st with chans := (cid, ch) :: st.chans.filter (fun p => !(p.1 == cid)) }

/-- Log events emitted by Hub.run. -/
inductive LogEvent where
  | clientRegistered (deviceID : String)
  | clientUnregistered (deviceID : String)
  | targetNotConnected (deviceID : String)
deriving DecidableEq, Repr

/-- Result of one serialized Hub.run step: ok carries the new state and
the log events of the step; panicked models a Go runtime panic (send on a
closed channel, close of a closed channel), which crashes the process. -/
inductive StepOut where
  | ok (st : HubState) (evts : List LogEvent)
  | panicked (reason : String)
deriving DecidableEq, Repr

/-- The three inputs of Hub.run's select. -/
inductive HubOp where
  | register (c : Client)
  | unregister (c : Client)
  | broadcast (m : SignalingMessage)
deriving DecidableEq, Repr

/-- The register case of Hub.run: h.clients[client.DeviceID] = client,
then an info log. Nothing else is touched: in particular no channel is
closed and no connection is closed. -/
def hubRegister (st : HubState) (c : Client) : StepOut :=
  .ok { st with clients := insertA st.clients c.DeviceID c } [.clientRegistered c.DeviceID]

/-- The unregister case of Hub.run: if the registry has ANY entry under
client.DeviceID (the code checks key presence, not that the entry is this
client), it deletes that entry and runs close(client.Send); Go panics if
client.Send is already closed. The info log is emitted either way. -/
def hubUnregister (st : HubState) (c : Client) : StepOut :=
  if (lookupA st.clients c.DeviceID).isSome then
    if (getChan st c.ID).closed then .panicked "close of closed channel"
    else
      .ok (setChan { st with clients := eraseA st.clients c.DeviceID } c.ID
            { getChan st c.ID with closed := true })
          [.clientUnregistered c.DeviceID]
  else .ok st [.clientUnregistered c.DeviceID]

/-- The broadcast case of Hub.run: parse message.ToDeviceID; on a parse
error the body is skipped entirely. On a hit, the nonblocking select
send: enqueue when the channel is open with room; Go panics when it is
closed; otherwise (full) the default branch closes the target channel and
deletes the target from the registry, dropping the message. On a miss, a
warn log only. -/
def hubBroadcast (st : HubState) (message : SignalingMessage) : StepOut :=
  match parseUUID message.ToDeviceID with
  | some toDeviceID =>
    match lookupA st.clients toDeviceID with
    | some client =>
      if (getChan st client.ID).closed then .panicked "send on closed channel"
      else if (getChan st client.ID).buf.length < chanCap then
        .ok (setChan st client.ID
              { getChan st client.ID with buf := (getChan st client.ID).buf ++ [message] }) []
      else
        .ok (setChan { st with clients := eraseA st.clients toDeviceID } client.ID
              { getChan st client.ID with closed := true }) []
    | none => .ok st [.targetNotConnected message.ToDeviceID]
  | none => .ok st []

def hubStep (st : HubState) : HubOp → StepOut
  | .register c => hubRegister st c
  | .unregister c => hubUnregister st c
  | .broadcast m => hubBroadcast st m

/-- Hub.run over a finite list of serialized inputs, stopping at the
first panic and accumulating log events otherwise. -/
def hubRun (st : HubState) : List HubOp → StepOut
  | [] => .ok st []
  | op :: rest =>
    match hubStep st op with
    | .ok st1 evts =>
      match hubRun st1 rest with
      | .ok st2 evts2 => .ok st2 (evts ++ evts2)
      | .panicked r => .panicked r
    | .panicked r => .panicked r

def stateOf (o : StepOut) : HubState :=
  match o with
  | .ok st _ => st
  | .panicked _ => { clients := [], chans := [] }

/-- Concrete device id of device A. -/
def dA : String := "aaaaaaaa-aaaa-aaaa-aaaa-aaaaaaaaaaaa"

/-- Concrete device id of device B. -/
def dB : String := "bbbbbbbb-bbbb-bbbb-bbbb-bbbbbbbbbbbb"

/-- Concrete account id of account X. -/
def uX : String := "11111111-1111-1111-1111-111111111111"

/-- Concrete account id of account Y. -/
def uY : String := "22222222-2222-2222-2222-222222222222"

def wDevB : Device := { id := dB, userID := uY, token := "tokB" }

def wRepo : DeviceRepo := DeviceRepo.ofList [wDevB]

def wSender : Client := { ID := 1, UserID := uX, DeviceID := dA }

def wTarget : Client := { ID := 2, UserID := uX, DeviceID := dB }

def wOfferMsg : SignalingMessage :=
  { msgType := "offer", FromDeviceID := "", ToDeviceID := dB,
    SDP := some { sdpType := "offer", sdp := "v=0" }, Candidate := none, Error := "", Data := "" }

def wAnswerMsg : SignalingMessage :=
  { msgType := "answer", FromDeviceID := "spoofed", ToDeviceID := dB,
    SDP := some { sdpType := "answer", sdp := "v=0" }, Candidate := none, Error := "", Data := "" }

def wAnswerEnv : SignalingMessage :=
  { msgType := "answer", FromDeviceID := dA, ToDeviceID := dB,
    SDP := some { sdpType := "answer", sdp := "v=0" }, Candidate := none, Error := "", Data := "" }

def wEmptyHub : HubState := { clients := [], chans := [] }

def wFullHub : HubState :=
  { clients := [(dB, wTarget)],
    chans := [(2, { buf := List.replicate 256 wAnswerEnv, closed := false })] }

def wBadToMsg : SignalingMessage :=
  { msgType := "answer", FromDeviceID := "", ToDeviceID := "not-a-uuid",
    SDP := none, Candidate := some { candidate := "cand", sdpMLineIndex := 0, sdpMid := "0" },
    Error := "", Data := "" }

/-- Outcome of Server.handleWebSocket for one connection attempt, after a
successful protocol upgrade: the envelopes written directly to the
connection, whether the connection was closed, whether UpdateLastSeen was
invoked, and the Client created and sent to hub.register (none when
admission failed). -/
structure ConnResult where
  writes : List SignalingMessage
  connClosed : Bool
  touchedLastSeen : Bool
  registered : Option Client
deriving DecidableEq, Repr

/-- The error envelope handleWebSocket writes on an admission failure: a
SignalingMessage with only Type and Error set. -/
def errEnvelope (e : String) : SignalingMessage :=
  { msgType := "error", FromDeviceID := "", ToDeviceID := "", SDP := none,
    Candidate := none, Error := e, Data := "" }

/-- Server.handleWebSocket of server.go from the query-parameter read
onward: freshID stands for the uuid.New() client id. -/
def handleWebSocket (repo : DeviceRepo) (freshID : Nat)
    (deviceIDStr deviceToken : String) : ConnResult :=
  if deviceIDStr = "" ∨ deviceToken = "" then
    { writes := [errEnvelope "device_id and device_token are required"],
      connClosed := true, touchedLastSeen := false, registered := none }
  else
    match parseUUID deviceIDStr with
    | none =>
      { writes := [errEnvelope "invalid device_id"],
        connClosed := true, touchedLastSeen := false, registered := none }
    | some deviceID =>
      match repo.getByToken deviceToken with
      | .error _ =>
        { writes := [errEnvelope "invalid device_token"],
          connClosed := true, touchedLastSeen := false, registered := none }
      | .ok none =>
        { writes := [errEnvelope "invalid device_token"],
          connClosed := true, touchedLastSeen := false, registered := none }
      | .ok (some device) =>
        if device.id ≠ deviceID then
          { writes := [errEnvelope "device_id does not match device_token"],
            connClosed := true, touchedLastSeen := false, registered := none }
        else
          { writes := [], connClosed := false, touchedLastSeen := true,
            registered := some { ID := freshID, UserID := device.userID, DeviceID := deviceID } }

def cexS1 : Client := { ID := 1, UserID := uX, DeviceID := dA }

def cexS2 : Client := { ID := 2, UserID := uX, DeviceID := dA }

/-- Hub state holding the (open, empty) Send channels of cexS1 and cexS2
and an empty registry. -/
def cexHub0 : HubState :=
  { clients := [],
    chans := [(1, { buf := [], closed := false }), (2, { buf := [], closed := false })] }

def w4Ping : SignalingMessage :=
  { msgType := "ping", FromDeviceID := "", ToDeviceID := "", SDP := none,
    Candidate := none, Error := "", Data := "" }

theorem parseUUID_empty : parseUUID "" = none := rfl

/-- C1: an offer whose to_device_id resolves (via the device registry) to
a device owned by a different account than the sender is answered with the
"devices must belong to the same user" error envelope to the sender and
is never submitted for dispatch, so it is never delivered to the target. -/
theorem offer_cross_account_rejected (repo : DeviceRepo) (c : Client) (msg : SignalingMessage)
    (t : String) (d : Device)
    (hp : parseUUID msg.ToDeviceID = some t)
    (hd : repo.getByID t = .ok (some d))
    (hacc : d.userID ≠ c.UserID) :
    handleOffer repo c msg = .sendErr "devices must belong to the same user" ∧
    dispatchesOf (handleOffer repo c msg) = [] := by
  have hne : msg.ToDeviceID ≠ "" := by
    intro he
    rw [he, parseUUID_empty] at hp
    exact Option.noConfusion hp
  constructor <;> simp [handleOffer, hne, hp, hd, hacc, dispatchesOf]

/-- C5: every envelope a handler submits for dispatch carries the
authenticated sender identity in from_device_id, and the handler outcome
is identical across inbound frames differing only in the client-claimed
from_device_id (the handlers never read it). -/
theorem from_device_id_overwritten (repo : DeviceRepo) (c : Client) (msg : SignalingMessage) :
    (∀ e, handleMessage repo c msg = .dispatch e → e.FromDeviceID = c.DeviceID) ∧
    (∀ x, handleMessage repo c { msg with FromDeviceID := x } = handleMessage repo c msg) := by
  constructor
  · intro e he
    unfold handleMessage handleOffer handleAnswer handleICECandidate at he
    repeat' split at he
    all_goals first
      | exact HandleResult.noConfusion he
      | (injection he with h; subst h; rfl)
  · intro x
    rfl

/-- C7: dispatch of an envelope whose to_device_id parses but has no
registered Session only logs the "target not connected" warning; the hub
state (registry and every channel) is unchanged and no error envelope is
produced for anyone. -/
theorem dispatch_unknown_target_drops (st : HubState) (m : SignalingMessage) (t : String)
    (hp : parseUUID m.ToDeviceID = some t)
    (hl : lookupA st.clients t = none) :
    hubStep st (.broadcast m) = .ok st [.targetNotConnected m.ToDeviceID] := by
  simp [hubStep, hubBroadcast, hp, hl]

/-- C8: dispatch to a registered target whose (open) outbound queue is
full closes the target channel, removes the target from the registry,
drops the envelope (the target buffer is unchanged) and emits no event
and no feedback to the sender; the decision is a total function of the
state, never a blocking wait. -/
theorem dispatch_full_queue_sheds (st : HubState) (m : SignalingMessage) (t : String) (cl : Client)
    (hp : parseUUID m.ToDeviceID = some t)
    (hl : lookupA st.clients t = some cl)
    (hopen : (getChan st cl.ID).closed = false)
    (hfull : chanCap ≤ (getChan st cl.ID).buf.length) :
    hubStep st (.broadcast m) =
      .ok (setChan { st with clients := eraseA st.clients t } cl.ID
            { getChan st cl.ID with closed := true }) [] := by
  have hnotlt : ¬ (getChan st cl.ID).buf.length < chanCap := Nat.not_lt.mpr hfull
  simp [hubStep, hubBroadcast, hp, hl, hopen, hnotlt]

/-- C10: an answer or ice-candidate with a non-empty but non-UUID
to_device_id is still forwarded to dispatch by its handler, and the
broadcast step then does nothing at all: no warning event, no registry or
channel change, no error envelope. -/
theorem invalid_target_uuid_silent_drop (c : Client) (msg : SignalingMessage) (st : HubState)
    (hne : msg.ToDeviceID ≠ "")
    (hbad : parseUUID msg.ToDeviceID = none) :
    handleAnswer c msg = .dispatch
      { msgType := "answer", FromDeviceID := c.DeviceID, ToDeviceID := msg.ToDeviceID,
        SDP := msg.SDP, Candidate := none, Error := "", Data := "" } ∧
    handleICECandidate c msg = .dispatch
      { msgType := "ice-candidate", FromDeviceID := c.DeviceID, ToDeviceID := msg.ToDeviceID,
        SDP := none, Candidate := msg.Candidate, Error := "", Data := "" } ∧
    hubStep st (.broadcast
      { msgType := "answer", FromDeviceID := c.DeviceID, ToDeviceID := msg.ToDeviceID,
        SDP := msg.SDP, Candidate := none, Error := "", Data := "" }) = .ok st [] ∧
    hubStep st (.broadcast
      { msgType := "ice-candidate", FromDeviceID := c.DeviceID, ToDeviceID := msg.ToDeviceID,
        SDP := none, Candidate := msg.Candidate, Error := "", Data := "" }) = .ok st [] := by
  refine ⟨?_, ?_, ?_, ?_⟩ <;>
    simp [handleAnswer, handleICECandidate, hubStep, hubBroadcast, hne, hbad]

theorem offer_cross_account_rejected_witness :
    handleOffer wRepo wSender wOfferMsg = .sendErr "devices must belong to the same user" ∧
    dispatchesOf (handleOffer wRepo wSender wOfferMsg) = [] :=
  offer_cross_account_rejected wRepo wSender wOfferMsg dB wDevB (by decide) rfl (by decide)

theorem from_device_id_overwritten_witness :
    wAnswerEnv.FromDeviceID = wSender.DeviceID ∧
    handleMessage wRepo wSender { wAnswerMsg with FromDeviceID := "evil" } =
      handleMessage wRepo wSender wAnswerMsg :=
  ⟨(from_device_id_overwritten wRepo wSender wAnswerMsg).1 wAnswerEnv rfl,
   (from_device_id_overwritten wRepo wSender wAnswerMsg).2 "evil"⟩

theorem dispatch_unknown_target_drops_witness :
    hubStep wEmptyHub (.broadcast wAnswerEnv) = .ok wEmptyHub [.targetNotConnected dB] :=
  dispatch_unknown_target_drops wEmptyHub wAnswerEnv dB (by decide) rfl

theorem dispatch_full_queue_sheds_witness :
    hubStep wFullHub (.broadcast wAnswerEnv) =
      .ok (setChan { wFullHub with clients := eraseA wFullHub.clients dB } wTarget.ID
            { getChan wFullHub wTarget.ID with closed := true }) [] :=
  dispatch_full_queue_sheds wFullHub wAnswerEnv dB wTarget (by decide) rfl rfl
    (le_of_eq (show chanCap = (List.replicate 256 wAnswerEnv).length by
      rw [List.length_replicate, chanCap]))

theorem invalid_target_uuid_silent_drop_witness :
    handleAnswer wSender wBadToMsg = .dispatch
      { msgType := "answer", FromDeviceID := wSender.DeviceID, ToDeviceID := wBadToMsg.ToDeviceID,
        SDP := wBadToMsg.SDP, Candidate := none, Error := "", Data := "" } ∧
    handleICECandidate wSender wBadToMsg = .dispatch
      { msgType := "ice-candidate", FromDeviceID := wSender.DeviceID,
        ToDeviceID := wBadToMsg.ToDeviceID, SDP := none, Candidate := wBadToMsg.Candidate,
        Error := "", Data := "" } ∧
    hubStep wEmptyHub (.broadcast
      { msgType := "answer", FromDeviceID := wSender.DeviceID, ToDeviceID := wBadToMsg.ToDeviceID,
        SDP := wBadToMsg.SDP, Candidate := none, Error := "", Data := "" }) = .ok wEmptyHub [] ∧
    hubStep wEmptyHub (.broadcast
      { msgType := "ice-candidate", FromDeviceID := wSender.DeviceID,
        ToDeviceID := wBadToMsg.ToDeviceID, SDP := none, Candidate := wBadToMsg.Candidate,
        Error := "", Data := "" }) = .ok wEmptyHub [] :=
  invalid_target_uuid_silent_drop wSender wBadToMsg wEmptyHub (by decide) rfl

theorem lookupA_insertA (l : List (String × Client)) (k : String) (v : Client) :
    lookupA (insertA l k v) k = some v := by
  simp [lookupA, insertA]

theorem filter_key_insertA (l : List (String × Client)) (k : String) (v : Client) :
    (insertA l k v).filter (fun p => p.1 == k) = [(k, v)] := by
  simp [insertA, List.filter_filter]

/-- C2 amended: a Register step replaces the registry entry for
session.deviceId with the new Session (leaving exactly one entry for that
key) and touches nothing else: in particular it does NOT close the prior
Session's outbound queue or transport — the prior Session is only retired
when its own loops exit. -/
theorem register_replaces_prior_session (st : HubState) (c : Client) :
    hubStep st (.register c) =
      .ok { clients := insertA st.clients c.DeviceID c, chans := st.chans }
        [.clientRegistered c.DeviceID] ∧
    lookupA (insertA st.clients c.DeviceID c) c.DeviceID = some c ∧
    ((insertA st.clients c.DeviceID c).filter (fun p => p.1 == c.DeviceID)).length = 1 := by
  refine ⟨rfl, lookupA_insertA st.clients c.DeviceID c, ?_⟩
  rw [filter_key_insertA]
  rfl

/-- C2 counterexample: cexS1 connects for device dA, then cexS2 reconnects
for the same device. Afterwards the registry maps dA to cexS2, but cexS1's
outbound queue is still open (and its transport untouched): Register closes
nothing, refuting "the prior Session ... has had its outbound queue closed
and its transport closed". -/
theorem register_leaves_prior_session_open_cex :
    lookupA (stateOf (hubRun cexHub0 [.register cexS1, .register cexS2])).clients dA =
      some cexS2 ∧
    (getChan (stateOf (hubRun cexHub0 [.register cexS1, .register cexS2])) 1).closed = false := by
  decide

/-- C3 (code bug): the unregister case checks only that SOME entry exists
under the deregistered client's deviceId, not that it is this client.
First run: after cexS1 registers, cexS2 replaces it, and the stale cexS1
deregisters, the registry is empty — the newer cexS2 has been removed,
violating the identity guard the claim states. Second run: deregistering
cexS1 twice with cexS2 registering in between reaches close() of cexS1's
already-closed channel, a Go runtime panic that crashes the process. -/
theorem unregister_missing_identity_guard_eval :
    (stateOf (hubRun cexHub0 [.register cexS1, .register cexS2, .unregister cexS1])).clients =
      [] ∧
    hubRun cexHub0 [.register cexS1, .unregister cexS1, .register cexS2, .unregister cexS1] =
      .panicked "close of closed channel" := by
  decide

/-- C4 amended: an undecodable frame is fatal to the session: the read
loop handles nothing further and exits, which triggers deregistration and
closes the connection (it is logged only when the error is an unexpected
close error). A decodable frame whose type is outside the closed set
{offer, answer, ice-candidate} is logged and dropped: nothing is
forwarded, no error goes to the sender, and the loop continues with the
remaining frames. -/
theorem readPump_unknown_type_tolerated (repo : DeviceRepo) (c : Client)
    (msg : SignalingMessage) (rest : List (Option SignalingMessage))
    (h1 : msg.msgType ≠ "offer") (h2 : msg.msgType ≠ "answer")
    (h3 : msg.msgType ≠ "ice-candidate") :
    readPump repo c (some msg :: rest) =
      (.dropUnknown msg.msgType :: (readPump repo c rest).1, (readPump repo c rest).2) ∧
    dispatchesOf (.dropUnknown msg.msgType) = [] ∧
    readPump repo c (none :: rest) = ([], true) := by
  refine ⟨?_, rfl, rfl⟩
  simp [readPump, handleMessage, h1, h2, h3]

theorem readPump_unknown_type_tolerated_witness :
    readPump wRepo wSender [some w4Ping] =
      (.dropUnknown w4Ping.msgType :: (readPump wRepo wSender []).1,
        (readPump wRepo wSender []).2) ∧
    dispatchesOf (.dropUnknown w4Ping.msgType) = [] ∧
    readPump wRepo wSender [none] = ([], true) :=
  readPump_unknown_type_tolerated wRepo wSender w4Ping [] (by decide) (by decide) (by decide)

/-- C4 counterexample: the stream [undecodable frame, decodable frame]
yields no handled frame and a terminated read loop: the frame behind the
undecodable one is never processed, refuting "an undecodable frame is
logged and the read loop continues without terminating the session". -/
theorem readPump_stops_on_undecodable_cex :
    readPump wRepo wSender [none, some w4Ping] = ([], true) := rfl

/-- C6: a connection attempt with a missing device_id or device_token, a
device_id that is not a well-formed UUID, a token lookup that errors or
finds no device, or a resolved device whose id differs from the claimed
device_id, makes handleWebSocket write exactly one error-kind envelope,
close the connection, and create and register no Client. -/
theorem admission_failure_rejected (repo : DeviceRepo) (freshID : Nat) (dstr tok : String)
    (h : dstr = "" ∨ tok = "" ∨ parseUUID dstr = none ∨
      (∃ s, repo.getByToken tok = .error s) ∨ repo.getByToken tok = .ok none ∨
      (∃ uid d, parseUUID dstr = some uid ∧ repo.getByToken tok = .ok (some d) ∧ d.id ≠ uid)) :
    ∃ e, (handleWebSocket repo freshID dstr tok).writes = [errEnvelope e] ∧
      (errEnvelope e).msgType = "error" ∧
      (handleWebSocket repo freshID dstr tok).connClosed = true ∧
      (handleWebSocket repo freshID dstr tok).registered = none := by
  by_cases hq : dstr = "" ∨ tok = ""
  · exact ⟨"device_id and device_token are required", by simp [handleWebSocket, errEnvelope, hq]⟩
  · cases hp : parseUUID dstr with
    | none => exact ⟨"invalid device_id", by simp [handleWebSocket, errEnvelope, hq, hp]⟩
    | some uid =>
      cases hr : repo.getByToken tok with
      | error s => exact ⟨"invalid device_token", by simp [handleWebSocket, errEnvelope, hq, hp, hr]⟩
      | ok o =>
        cases o with
        | none => exact ⟨"invalid device_token", by simp [handleWebSocket, errEnvelope, hq, hp, hr]⟩
        | some d =>
          by_cases hid : d.id = uid
          · exfalso
            rcases h with h | h | h | ⟨s, h⟩ | h | ⟨uid2, d2, h1, h2, h3⟩
            · exact hq (Or.inl h)
            · exact hq (Or.inr h)
            · rw [hp] at h; exact Option.noConfusion h
            · rw [hr] at h; exact Except.noConfusion h
            · rw [hr] at h
              have : (some d : Option Device) = none := Except.ok.inj h
              exact Option.noConfusion this
            · rw [hp] at h1
              rw [hr] at h2
              have huid : uid2 = uid := (Option.some.inj h1).symm
              have hd : d2 = d := Option.some.inj (Except.ok.inj h2).symm
              exact h3 (by rw [hd, huid, hid])
          · exact ⟨"device_id does not match device_token",
              by simp [handleWebSocket, errEnvelope, hq, hp, hr, hid]⟩

theorem admission_failure_rejected_witness :
    ∃ e, (handleWebSocket wRepo 7 "x" "tokB").writes = [errEnvelope e] ∧
      (errEnvelope e).msgType = "error" ∧
      (handleWebSocket wRepo 7 "x" "tokB").connClosed = true ∧
      (handleWebSocket wRepo 7 "x" "tokB").registered = none :=
  admission_failure_rejected wRepo 7 "x" "tokB" (Or.inr (Or.inr (Or.inl (by decide))))

/-- C9: an answer or ice-candidate with non-empty to_device_id is
submitted for dispatch as-is, with no registry resolution and no
same-account check: the handler outcome is independent of the device
registry for every non-offer message (only offers consult it). With an
empty to_device_id the handler sends an error envelope back to the sender,
and the read loop continues after any decoded frame, so the connection
stays open. -/
theorem answer_ice_forwarded_unchecked (c : Client) (msg : SignalingMessage)
    (repo repo2 : DeviceRepo)
    (hne : msg.ToDeviceID ≠ "") :
    handleAnswer c msg = .dispatch
      { msgType := "answer", FromDeviceID := c.DeviceID, ToDeviceID := msg.ToDeviceID,
        SDP := msg.SDP, Candidate := none, Error := "", Data := "" } ∧
    handleICECandidate c msg = .dispatch
      { msgType := "ice-candidate", FromDeviceID := c.DeviceID, ToDeviceID := msg.ToDeviceID,
        SDP := none, Candidate := msg.Candidate, Error := "", Data := "" } ∧
    (∀ m : SignalingMessage, m.msgType ≠ "offer" →
      handleMessage repo c m = handleMessage repo2 c m) ∧
    handleAnswer c { msg with ToDeviceID := "" } =
      .sendErr "to_device_id is required for answer" ∧
    handleICECandidate c { msg with ToDeviceID := "" } =
      .sendErr "to_device_id is required for ice-candidate" ∧
    (∀ (m : SignalingMessage) (rest : List (Option SignalingMessage)),
      (readPump repo c (some m :: rest)).2 = (readPump repo c rest).2) := by
  refine ⟨?_, ?_, ?_, ?_, ?_, ?_⟩
  · simp [handleAnswer, hne]
  · simp [handleICECandidate, hne]
  · intro m hm
    simp [handleMessage, hm]
  · simp [handleAnswer]
  · simp [handleICECandidate]
  · intro m rest
    rfl

theorem answer_ice_forwarded_unchecked_witness :
    handleAnswer wSender wAnswerMsg = .dispatch
      { msgType := "answer", FromDeviceID := wSender.DeviceID,
        ToDeviceID := wAnswerMsg.ToDeviceID, SDP := wAnswerMsg.SDP, Candidate := none,
        Error := "", Data := "" } ∧
    handleICECandidate wSender wAnswerMsg = .dispatch
      { msgType := "ice-candidate", FromDeviceID := wSender.DeviceID,
        ToDeviceID := wAnswerMsg.ToDeviceID, SDP := none, Candidate := wAnswerMsg.Candidate,
        Error := "", Data := "" } ∧
    (∀ m : SignalingMessage, m.msgType ≠ "offer" →
      handleMessage wRepo wSender m = handleMessage (DeviceRepo.ofList []) wSender m) ∧
    handleAnswer wSender { wAnswerMsg with ToDeviceID := "" } =
      .sendErr "to_device_id is required for answer" ∧
    handleICECandidate wSender { wAnswerMsg with ToDeviceID := "" } =
      .sendErr "to_device_id is required for ice-candidate" ∧
    (∀ (m : SignalingMessage) (rest : List (Option SignalingMessage)),
      (readPump wRepo wSender (some m :: rest)).2 = (readPump wRepo wSender rest).2) :=
  answer_ice_forwarded_unchecked wSender wAnswerMsg wRepo (DeviceRepo.ofList []) (by decide)
